import Mathlib

/-!
Verification development for the wger-superman-dashboard synchronization
scripts.  The Python sources under scripts/ are shallowly embedded:
Python floats become rationals, network calls become explicit response
parameters, and the wger destination becomes an explicit record state.
-/

namespace HealthSync

/-- Python round-half-to-even of a rational number to an integer,
modelling the builtin round applied to an exact decimal value. -/
def roundHalfEven (q : ℚ) : ℤ :=
  let f := q.floor
  let frac := q - (f : ℚ)
  if frac < 1/2 then f
  else if 1/2 < frac then f + 1
  else if f % 2 = 0 then f else f + 1

/-- Python round(x, dp), modelled exactly over the rationals. -/
def pyRound (q : ℚ) (dp : ℕ) : ℚ :=
  (roundHalfEven (q * (10 : ℚ) ^ dp) : ℚ) / (10 : ℚ) ^ dp

/-- Withings sample decoding: value = float(raw) * (10 ** int(expo)). -/
def decodeValue (raw expo : ℤ) : ℚ := (raw : ℚ) * (10 : ℚ) ^ expo

/-- Kilograms-to-pounds conversion used by the scripts: weight_lb = value * 2.20462. -/
def weightLb (v : ℚ) : ℚ := v * 2.20462

/-- Sanity bound on a converted weight: 30 <= weight_lb <= 350. -/
def weightInBounds (wlb : ℚ) : Bool := decide (30 ≤ wlb) && decide (wlb ≤ 350)

/-- The hydration formula of sync_withings and backfill_withings:
(value / (value / 2.20462)) * 100. -/
def hydration_pct (v : ℚ) : ℚ := (v / (v / 2.20462)) * 100

/-- Action reported by a destination write: HTTP POST (created) or PUT (updated). -/
inductive Action where
  | created
  | updated
  deriving DecidableEq, Repr

/-- A measurement point stored by the destination tracker. -/
structure MPoint where
  id : ℕ
  category : ℕ
  date : ℕ
  value : ℚ
  notes : String
  deriving DecidableEq, Repr

/-- A weight entry stored by the destination tracker, keyed by date alone. -/
structure WeightEntry where
  id : ℕ
  date : ℕ
  weight : ℚ
  deriving DecidableEq, Repr

/-- A measurement category of the destination tracker. -/
structure MCategory where
  id : ℕ
  name : String
  unit : String
  deriving DecidableEq, Repr

/-- The destination tracker state: its three REST resources plus a
primary-key counter used for ids of newly created records. -/
structure WgerState where
  points : List MPoint
  weights : List WeightEntry
  cats : List MCategory
  nextId : ℕ
  deriving DecidableEq, Repr

/-- Does a stored point match the (category, date) lookup key. -/
def pointMatches (p : MPoint) (cat date : ℕ) : Bool :=
  p.category == cat && p.date == date

/-- The ids the destination returns for a list-by-(category, date) query. -/
def queryIds (s : WgerState) (cat date : ℕ) : List ℕ :=
  (s.points.filter (fun p => pointMatches p cat date)).map (fun p => p.id)

/-- The ids the destination returns for a list-by-date weight query. -/
def weightIds (s : WgerState) (date : ℕ) : List ℕ :=
  (s.weights.filter (fun w => w.date == date)).map (fun w => w.id)

/-- Number of stored points matching (category, date). -/
def countMatching (s : WgerState) (cat date : ℕ) : ℕ :=
  (s.points.filter (fun p => pointMatches p cat date)).length

/-- Number of stored weight entries for a date. -/
def countWeightOn (s : WgerState) (date : ℕ) : ℕ :=
  (s.weights.filter (fun w => w.date == date)).length

/-- Outcome of the existence query GET /api/v2/measurement/ (or weightentry):
either an HTTP response with a status and the ids of the returned results,
or a raised requests exception. -/
inductive QueryOutcome where
  | http (status : ℕ) (ids : List ℕ)
  | exn
  deriving DecidableEq, Repr

/-- existing_id extraction: results are read only from a 200 response, and
results[0].id is taken when the result list is nonempty; every exception
leaves existing_id = None. -/
def existingIdOf : QueryOutcome → Option ℕ
  | .http status ids => if status == 200 then ids.head? else none
  | .exn => none

/-- A query outcome that the scripts treat as a failed lookup:
a raised exception or any non-200 status. -/
def queryFailed : QueryOutcome → Bool
  | .http status _ => status != 200
  | .exn => true

/-- Response of the destination to one write attempt (PUT or POST). -/
inductive WriteResp where
  | status (code : ℕ)
  | timeoutExn
  deriving DecidableEq, Repr

/-- Result of one call to a post helper of daily_health_sync:
a normal return carrying the new destination state plus the
success-and-action pair, or an uncaught exception. -/
inductive PostResult where
  | success (s : WgerState) (action : Action)
  | failure (s : WgerState) (statusCode : ℕ)
  | raised
  deriving DecidableEq, Repr

/-- Overwrite a stored point with the payload of a PUT request. -/
def updatePoint (cat date : ℕ) (v : ℚ) (notes : String) (p : MPoint) : MPoint :=
  { p with category := cat, date := date, value := v, notes := notes }

/-- Overwrite a stored weight entry with the payload of a PUT request. -/
def updateWeightEntry (date : ℕ) (w : ℚ) (e : WeightEntry) : WeightEntry :=
  { e with date := date, weight := w }

/-- Apply a measurement write to the destination: PUT to the addressed id
if one was found, POST a fresh record otherwise.  The payload carries
(category, date, value, notes[:100]) exactly as in the scripts. -/
def applyMeasurementWrite (s : WgerState) (eid : Option ℕ) (cat date : ℕ)
    (v : ℚ) (notes : String) : WgerState × Action :=
  match eid with
  | some i =>
      ({ s with points := s.points.map (fun p =>
          if p.id == i then updatePoint cat date v (notes.take 100) p else p) },
        .updated)
  | none =>
      let p : MPoint := ⟨s.nextId, cat, date, v, notes.take 100⟩
      ({ s with points := s.points ++ [p], nextId := s.nextId + 1 }, .created)

/-- Apply a weight write to the destination; the payload weight is
round(weight_lb, 2) as in the scripts. -/
def applyWeightWrite (s : WgerState) (eid : Option ℕ) (date : ℕ)
    (wlb : ℚ) : WgerState × Action :=
  match eid with
  | some i =>
      ({ s with weights := s.weights.map (fun e =>
          if e.id == i then updateWeightEntry date (pyRound wlb 2) e else e) },
        .updated)
  | none =>
      let e : WeightEntry := ⟨s.nextId, date, pyRound wlb 2⟩
      ({ s with weights := s.weights ++ [e], nextId := s.nextId + 1 }, .created)

namespace DailySync

/-- daily_health_sync.wger_post_measurement: look up (category, date),
treating any lookup failure as absence; then PUT to the found id or POST
a new point.  The single write attempt is not retried: a 2xx status is a
success, a non-2xx status is reported with the status code, and a timeout
exception propagates out of the function. -/
def wger_post_measurement (s : WgerState) (q : QueryOutcome) (w : WriteResp)
    (cat date : ℕ) (v : ℚ) (notes : String) : PostResult :=
  let eid := existingIdOf q
  match w with
  | .timeoutExn => .raised
  | .status code =>
      if code == 200 || code == 201 then
        let r := applyMeasurementWrite s eid cat date v notes
        .success r.1 r.2
      else
        .failure s code

/-- daily_health_sync.wger_post_weight: identical protocol on the
weightentry resource, keyed by date alone. -/
def wger_post_weight (s : WgerState) (q : QueryOutcome) (w : WriteResp)
    (date : ℕ) (wlb : ℚ) : PostResult :=
  let eid := existingIdOf q
  match w with
  | .timeoutExn => .raised
  | .status code =>
      if code == 200 || code == 201 then
        let r := applyWeightWrite s eid date wlb
        .success r.1 r.2
      else
        .failure s code

/-- wger_post_measurement against a well-behaved destination: the lookup
returns status 200 with the ids actually stored for (category, date), and
the write succeeds. -/
def wger_post_measurement_ok (s : WgerState) (cat date : ℕ) (v : ℚ)
    (notes : String) : PostResult :=
  wger_post_measurement s (.http 200 (queryIds s cat date)) (.status 200) cat date v notes

/-- wger_post_weight against a well-behaved destination. -/
def wger_post_weight_ok (s : WgerState) (date : ℕ) (wlb : ℚ) : PostResult :=
  wger_post_weight s (.http 200 (weightIds s date)) (.status 200) date wlb

end DailySync

namespace Backfill

/-- Response of the destination to one attempt inside the retry loop of
backfill_all_data.wger_post_measurement. -/
inductive WAResp where
  | httpStatus (code : ℕ)
  | timeout
  | exn
  deriving DecidableEq, Repr

/-- Final outcome reported by the retrying write helper. -/
inductive BOutcome where
  | success (action : Action)
  | failedStatus (code : ℕ)
  | timeoutFail
  | otherError
  | unknown
  deriving DecidableEq, Repr

/-- What a run of the retry loop did: how many write attempts were made,
the sleeps (in seconds) performed between attempts, and the outcome. -/
structure RunResult where
  attempts : ℕ
  sleeps : List ℕ
  outcome : BOutcome
  deriving DecidableEq, Repr

/-- The retry loop body of backfill_all_data.wger_post_measurement:
for attempt in range(max_retries), a 2xx response returns success, a
non-2xx response returns the status immediately, a timeout sleeps 2
seconds and continues while attempt < max_retries - 1 and otherwise
reports the timeout, and any other exception returns an error.
The respond function gives the response of attempt number i. -/
def attemptLoop (resps : ℕ → WAResp) (maxRetries : ℕ) (act : Action) :
    ℕ → ℕ → RunResult
  | _, 0 => ⟨0, [], .unknown⟩
  | attempt, remaining + 1 =>
      match resps attempt with
      | .httpStatus code =>
          if code == 200 || code == 201 then ⟨1, [], .success act⟩
          else ⟨1, [], .failedStatus code⟩
      | .timeout =>
          if attempt < maxRetries - 1 then
            let r := attemptLoop resps maxRetries act (attempt + 1) remaining
            ⟨r.attempts + 1, 2 :: r.sleeps, r.outcome⟩
          else ⟨1, [], .timeoutFail⟩
      | .exn => ⟨1, [], .otherError⟩

/-- backfill_all_data.wger_post_measurement write phase: max_retries = 3,
the action label fixed by whether the preceding lookup found an id. -/
def wger_post_measurement_retry (resps : ℕ → WAResp) (hasExisting : Bool) :
    RunResult :=
  attemptLoop resps 3 (if hasExisting then .updated else .created) 0 3

end Backfill

/-- A stored Withings OAuth credential, as persisted in withings_tokens.json. -/
structure WithingsTokens where
  access_token : String
  refresh_token : String
  obtained_at : ℤ
  expires_in : ℤ
  deriving DecidableEq, Repr

/-- The body of a successful provider refresh response. -/
structure RefreshBody where
  access_token : String
  refresh_token : String
  expires_in : ℤ
  deriving DecidableEq, Repr

/-- Outcome of get_withings_access_token in backfill_all_data: the stored
token is used as-is, or a refresh is performed and the refreshed credential
is persisted, or the script exits. -/
inductive TokenOutcome where
  | useStored (token : String)
  | refreshed (token : String) (saved : WithingsTokens)
  | exitFail
  deriving DecidableEq, Repr

/-- backfill_all_data.get_withings_access_token.  The stored credential and
the current time are explicit; the provider refresh call is modelled by its
optional response body (None meaning the provider rejected the refresh).
A refresh happens exactly when now > obtained_at + max(expires_in - 60, 0),
and a successful refresh is persisted with obtained_at = now, as set by
refresh_withings_token before save_withings_tokens. -/
def get_withings_access_token (stored : Option WithingsTokens) (now : ℤ)
    (refreshResp : Option RefreshBody) : TokenOutcome :=
  match stored with
  | none => .exitFail
  | some tokens =>
      if now > tokens.obtained_at + max (tokens.expires_in - 60) 0 then
        match refreshResp with
        | some body =>
            let fresh : WithingsTokens :=
              ⟨body.access_token, body.refresh_token, now, body.expires_in⟩
            .refreshed fresh.access_token fresh
        | none => .exitFail
      else .useStored tokens.access_token

/-- One day of the Withings activity response; a missing field models
both an absent key and an explicit None. -/
structure ActivityDay where
  date : Option ℕ
  steps : Option ℚ
  distance : Option ℚ
  calories : Option ℚ
  deriving DecidableEq, Repr

/-- One sample inside a Withings measure group: a type code, a raw value
and a base-10 scale exponent, each possibly missing. -/
structure Measure where
  mtype : Option ℤ
  value : Option ℤ
  unit : Option ℤ
  deriving DecidableEq, Repr

/-- One Withings measure group: a timestamp (0 when absent) and samples. -/
structure MeasureGrp where
  date : Option ℕ
  measures : List Measure
  deriving DecidableEq, Repr

/-- The body of the Withings getactivity response.  The emptyDict
constructor stands for a falsy payload (an empty JSON object or a missing
key), which the cache-reload check of backfill_withings tests for. -/
inductive ActivityBody where
  | emptyDict
  | withDays (activities : List ActivityDay)
  deriving DecidableEq, Repr

/-- The body of the Withings getmeas response, with the same falsy case. -/
inductive WeightBody where
  | emptyDict
  | withGrps (measuregrps : List MeasureGrp)
  deriving DecidableEq, Repr

/-- Python truthiness of the activity payload. -/
def ActivityBody.truthy : ActivityBody → Bool
  | .emptyDict => false
  | .withDays _ => true

/-- Python truthiness of the weight payload. -/
def WeightBody.truthy : WeightBody → Bool
  | .emptyDict => false
  | .withGrps _ => true

/-- A cached raw snapshot written by backfill_withings: fetch timestamp,
the requested range, and both provider responses verbatim. -/
structure WithingsSnapshot where
  fetch_date : ℕ
  range_start : String
  range_end : String
  activity : ActivityBody
  weight : WeightBody
  deriving DecidableEq, Repr

namespace Backfill

/-- The cache phase of backfill_all_data.backfill_withings.  The snapshot
directory is a map from the (start, end) range key to an optional stored
snapshot; fetchActivity and fetchWeight are the responses the provider
would give if called.  Returns the payload pair used for posting, the new
cache contents, and whether the provider was called.  Loading mirrors the
source exactly: a stored file is deserialized and its activity and weight
entries read with empty-object defaults, and the provider is called
whenever either loaded payload is falsy, after which the full response is
written back under the same key together with the fetch timestamp and the
requested range. -/
def backfill_withings_load (cache : String × String → Option WithingsSnapshot)
    (fetchActivity : ActivityBody) (fetchWeight : WeightBody) (now : ℕ)
    (sd ed : String) :
    (ActivityBody × WeightBody) × (String × String → Option WithingsSnapshot) × Bool :=
  let loaded : ActivityBody × WeightBody :=
    match cache (sd, ed) with
    | some snap => (snap.activity, snap.weight)
    | none => (.emptyDict, .emptyDict)
  if loaded.1.truthy && loaded.2.truthy then
    (loaded, cache, false)
  else
    let snap : WithingsSnapshot := ⟨now, sd, ed, fetchActivity, fetchWeight⟩
    ((fetchActivity, fetchWeight),
      fun k => if k = (sd, ed) then some snap else cache k, true)

end Backfill

/-- A cached sleep snapshot written by backfill_sleep_data: fetch
timestamp, requested range, and the fetched payload (sleeper, bed and
per-day sleep data), kept abstract. -/
structure SleepSnapshot (α : Type) where
  fetch_date : ℕ
  range_start : String
  range_end : String
  payload : α
  deriving DecidableEq, Repr

namespace SleepBackfill

/-- The cache phase of backfill_sleep_data.backfill_sleep_number: an
existing snapshot file for the exact range key is loaded and used with no
provider call; otherwise fetch_all_sleep_data is run, and on success its
result is stamped with the fetch timestamp and range and written to the
cache before posting (on a failed fetch nothing is written and the run
stops).  Returns the data used for posting, the new cache, and whether
the provider was called. -/
def backfill_sleep_number_load {α : Type}
    (cache : String × String → Option (SleepSnapshot α))
    (fetchResult : Option α) (now : ℕ) (sd ed : String) :
    Option (SleepSnapshot α) × (String × String → Option (SleepSnapshot α)) × Bool :=
  match cache (sd, ed) with
  | some snap => (some snap, cache, false)
  | none =>
      match fetchResult with
      | none => (none, cache, true)
      | some p =>
          let snap : SleepSnapshot α := ⟨now, sd, ed, p⟩
          (some snap, fun k => if k = (sd, ed) then some snap else cache k, true)

end SleepBackfill

/-- Semantic label of a body-composition category used by the scripts. -/
inductive BodyCat where
  | bodyfat
  | muscle
  | bone
  | hydration
  deriving DecidableEq, Repr

/-- A write request issued while walking a Withings weight response:
either a weightentry upsert for a calendar day, or a measurement upsert
for a body-composition category. -/
inductive WriteReq where
  | weightW (date : ℕ) (valueLb : ℚ)
  | measW (date : ℕ) (cat : BodyCat) (value : ℚ)
  deriving DecidableEq, Repr

/-- Is a request a weightentry write. -/
def WriteReq.isWeight : WriteReq → Bool
  | .weightW _ _ => true
  | .measW _ _ _ => false

/-- The weightentry writes contained in a request list. -/
def weightWrites (l : List WriteReq) : List WriteReq :=
  l.filter WriteReq.isWeight

/-- The writes for one body-composition category in a request list. -/
def bodyWrites (c : BodyCat) (l : List WriteReq) : List WriteReq :=
  l.filter (fun r =>
    match r with
    | .measW _ cc _ => cc == c
    | .weightW _ _ => false)

/-- The inner sample loop shared by sync_withings and backfill_withings,
walking the measures of one group while carrying the weight_posted flag.
Samples with a missing value or exponent are skipped; a type-1 sample is
posted as a weight when no weight was posted yet in this group and the
converted pounds lie in bounds; types 6, 76 and 88 post body composition;
a type-77 sample posts the hydration formula only when a weight was
posted in this group and the decoded value is positive; other type codes
are ignored.  Destination writes are assumed to succeed, so a posted
weight always sets the flag, as the source does on success. -/
def processMeasures (date : ℕ) : List Measure → Bool → List WriteReq
  | [], _ => []
  | m :: rest, wp =>
      match m.value, m.unit with
      | some raw, some expo =>
          let v := decodeValue raw expo
          if m.mtype == some 1 && !wp then
            if weightInBounds (weightLb v) then
              .weightW date (pyRound (weightLb v) 2) :: processMeasures date rest true
            else
              processMeasures date rest wp
          else if m.mtype == some 6 then
            .measW date .bodyfat (pyRound v 2) :: processMeasures date rest wp
          else if m.mtype == some 76 then
            .measW date .muscle (pyRound v 2) :: processMeasures date rest wp
          else if m.mtype == some 77 then
            if wp && decide (0 < v) then
              .measW date .hydration (pyRound (hydration_pct v) 1) :: processMeasures date rest wp
            else
              processMeasures date rest wp
          else if m.mtype == some 88 then
            .measW date .bone (pyRound v 2) :: processMeasures date rest wp
          else
            processMeasures date rest wp
      | _, _ => processMeasures date rest wp

/-- Bucketing of an epoch timestamp into a calendar day, modelling the
strftime of the local date as the day index. -/
def tsToDay (ts : ℕ) : ℕ := ts / 86400

/-- The outer group loop of sync_withings and backfill_withings: groups
with a missing or zero timestamp are skipped, and each group is walked
with a fresh weight_posted = False flag. -/
def processMeasureGrps : List MeasureGrp → List WriteReq
  | [] => []
  | g :: rest =>
      let ts := g.date.getD 0
      if ts == 0 then processMeasureGrps rest
      else processMeasures (tsToDay ts) g.measures false ++ processMeasureGrps rest

/-- The first sample of a list that the weight branch would accept with a
fresh flag: a type-1 sample with both fields present whose converted
pounds are in bounds; yields those pounds. -/
def validWeightSample (m : Measure) : Option ℚ :=
  match m.value, m.unit with
  | some raw, some expo =>
      if m.mtype == some 1 && weightInBounds (weightLb (decodeValue raw expo)) then
        some (weightLb (decodeValue raw expo))
      else none
  | _, _ => none

/-- The first valid weight sample of a group, in provider order. -/
def firstValidWeight (ms : List Measure) : Option ℚ :=
  ms.findSome? validWeightSample

/-- Is a sample a complete body-composition sample of the given type code. -/
def isBodyCompSample (c : ℤ) (m : Measure) : Bool :=
  m.value.isSome && m.unit.isSome && (m.mtype == some c)

/-- Category resolution result of wger_get_or_create_category: an id of an
exact existing match, an id of a freshly created category, or the raised
exception when the create is rejected. -/
inductive CatResult where
  | found (id : ℕ)
  | created (id : ℕ)
  | raisedErr (code : ℕ)
  deriving DecidableEq, Repr

/-- The lookup half of wger_get_or_create_category: the first listed
category whose name and unit both match exactly. -/
def findCategory (cats : List MCategory) (name unit : String) : Option ℕ :=
  ((cats.filter (fun c => c.name == name && c.unit == unit)).map (fun c => c.id)).head?

/-- wger_get_or_create_category: list the remote categories and return the
id of an exact (name, unit) match; otherwise POST a create, returning the
new id on a 2xx response and raising on anything else.  createStatus is
the status the destination answers the create with; on success the
destination appends the category under a fresh id. -/
def wger_get_or_create_category (s : WgerState) (createStatus : ℕ)
    (name unit : String) : WgerState × CatResult :=
  match findCategory s.cats name unit with
  | some i => (s, .found i)
  | none =>
      if createStatus == 200 || createStatus == 201 then
        let c : MCategory := ⟨s.nextId, name, unit⟩
        ({ s with cats := s.cats ++ [c], nextId := s.nextId + 1 }, .created s.nextId)
      else
        (s, .raisedErr createStatus)

/-- A parsed-or-entered nutrition record of daily_health_sync. -/
structure Nutrition where
  date : ℕ
  calories : ℚ
  protein_g : ℚ
  carbs_g : ℚ
  fat_g : ℚ
  sodium_mg : ℚ
  exercise_cals : ℚ
  deriving DecidableEq, Repr

/-- One enabled daily-constant meal from daily_constants.json. -/
structure DailyConstant where
  calories : ℚ
  protein_g : ℚ
  carbs_g : ℚ
  fat_g : ℚ
  sodium_mg : ℚ
  deriving DecidableEq, Repr

/-- daily_health_sync.combine_with_constants: add every constant onto the
nutrition totals. -/
def combine_with_constants (n : Nutrition) (cs : List DailyConstant) : Nutrition :=
  cs.foldl (fun acc c =>
    { acc with
      calories := acc.calories + c.calories
      protein_g := acc.protein_g + c.protein_g
      carbs_g := acc.carbs_g + c.carbs_g
      fat_g := acc.fat_g + c.fat_g
      sodium_mg := acc.sodium_mg + c.sodium_mg }) n

/-- Hardcoded wger category ids of daily_health_sync. -/
def CATEGORY_CALORIES : ℕ := 18

/-- Daily Protein category id. -/
def CATEGORY_PROTEIN : ℕ := 19

/-- Daily Carbs category id. -/
def CATEGORY_CARBS : ℕ := 20

/-- Daily Fat category id. -/
def CATEGORY_FAT : ℕ := 21

/-- MFP Exercise Calories category id. -/
def CATEGORY_EXERCISE : ℕ := 22

/-- The measurements list assembled by sync_mfp_nutrition from the
constants-combined record (the sodium category id is resolved at run
time). -/
def nutritionMeasurements (combined : Nutrition) (catSodium : ℕ) : List (ℕ × ℚ) :=
  [(CATEGORY_CALORIES, combined.calories),
   (CATEGORY_EXERCISE, combined.exercise_cals),
   (CATEGORY_PROTEIN, combined.protein_g),
   (CATEGORY_CARBS, combined.carbs_g),
   (CATEGORY_FAT, combined.fat_g),
   (catSodium, combined.sodium_mg)]

/-- The posting loop of sync_mfp_nutrition skips every measurement whose
value equals 0 and posts the rest. -/
def nutritionPosts (combined : Nutrition) (catSodium : ℕ) : List (ℕ × ℚ) :=
  (nutritionMeasurements combined catSodium).filter (fun m => m.2 != 0)

/-- The steps write of one activity day in sync_withings: present and
positive steps are converted to kilosteps and rounded to 2 decimals. -/
def stepsWrite (day : ActivityDay) : Option ℚ :=
  match day.steps with
  | some st => if 0 < st then some (pyRound (st / 1000) 2) else none
  | none => none

/-- The distance write of one activity day: meters to kilometers. -/
def distanceWrite (day : ActivityDay) : Option ℚ :=
  match day.distance with
  | some d => if 0 < d then some (pyRound (d / 1000) 2) else none
  | none => none

/-- The calories write of one activity day. -/
def caloriesWrite (day : ActivityDay) : Option ℚ :=
  match day.calories with
  | some c => if 0 < c then some (pyRound c 2) else none
  | none => none

/-- All measurement writes sync_withings issues for one activity day:
days without a date are skipped, and each of steps, distance and calories
is posted only when present and strictly positive. -/
def dailyActivityWrites (day : ActivityDay) (catSteps catDistance catCalories : ℕ) :
    List (ℕ × ℚ) :=
  match day.date with
  | none => []
  | some _ =>
      (stepsWrite day).toList.map (fun v => (catSteps, v)) ++
      (distanceWrite day).toList.map (fun v => (catDistance, v)) ++
      (caloriesWrite day).toList.map (fun v => (catCalories, v))

/-- The retry loop makes at most as many attempts as it has remaining
iterations. -/
theorem attemptLoop_attempts_le (resps : ℕ → Backfill.WAResp) (mr : ℕ) (act : Action) :
    ∀ r a, (Backfill.attemptLoop resps mr act a r).attempts ≤ r := by
  intro r
  induction r with
  | zero => intro a; simp [Backfill.attemptLoop]
  | succ n ih =>
      intro a
      unfold Backfill.attemptLoop
      cases resps a with
      | httpStatus code =>
          by_cases h : (code == 200 || code == 201) = true <;> simp [h]
      | timeout =>
          by_cases h : a < mr - 1
          · simp only [if_pos h]
            have := ih (a + 1)
            simpa using Nat.succ_le_succ this
          · simp [if_neg h]
      | exn => simp

end HealthSync

open HealthSync

/-- C4: a refresh of the stored Withings credential is triggered exactly
when now > obtained_at + max(expires_in - 60, 0); a credential obtained at
T with expires_in = 3600 is used as-is at T + 3539 and refreshed at
T + 3541; and a successful refresh is persisted with obtained_at = now. -/
theorem C4_token_refresh_timing :
    (∀ (t : WithingsTokens) (now : ℤ) (rr : Option RefreshBody),
      (¬ now > t.obtained_at + max (t.expires_in - 60) 0 →
        get_withings_access_token (some t) now rr = .useStored t.access_token) ∧
      (now > t.obtained_at + max (t.expires_in - 60) 0 → ∀ b, rr = some b →
        get_withings_access_token (some t) now rr =
          .refreshed b.access_token ⟨b.access_token, b.refresh_token, now, b.expires_in⟩)) ∧
    (∀ (T : ℤ) (a r : String) (rr : Option RefreshBody),
      get_withings_access_token (some ⟨a, r, T, 3600⟩) (T + 3539) rr = .useStored a) ∧
    (∀ (T : ℤ) (a r : String) (b : RefreshBody),
      get_withings_access_token (some ⟨a, r, T, 3600⟩) (T + 3541) (some b) =
        .refreshed b.access_token ⟨b.access_token, b.refresh_token, T + 3541, b.expires_in⟩) := by
  refine ⟨fun t now rr => ⟨fun h => ?_, fun h b hb => ?_⟩, fun T a r rr => ?_, fun T a r b => ?_⟩
  · simp only [get_withings_access_token, if_neg h]
  · subst hb
    simp only [get_withings_access_token, if_pos h]
  · have h : ¬ (T + 3539 > T + max ((3600 : ℤ) - 60) 0) := by
      have : max ((3600 : ℤ) - 60) 0 = 3540 := by norm_num
      omega
    simp only [get_withings_access_token]
    rw [if_neg h]
  · have h : T + 3541 > T + max ((3600 : ℤ) - 60) 0 := by
      have : max ((3600 : ℤ) - 60) 0 = 3540 := by norm_num
      omega
    simp only [get_withings_access_token]
    rw [if_pos h]

/-- Witness for C4 at a concrete credential and clock. -/
theorem C4_token_refresh_timing_witness :
    ¬ ((3539 : ℤ) > 0 + max ((3600 : ℤ) - 60) 0) ∧
    get_withings_access_token (some ⟨"tok", "ref", 0, 3600⟩) 3539 none =
      .useStored "tok" :=
  ⟨by decide, (C4_token_refresh_timing.1 ⟨"tok", "ref", 0, 3600⟩ 3539 none).1 (by decide)⟩

/-- C9: the hydration formula (value / (value / 2.20462)) * 100 equals the
constant 220.462 for every positive value, so the rounded hydration
percentage written to the destination (220.5 after round(_, 1)) does not
depend on the decoded hydration sample. -/
theorem C9_hydration_constant (v : ℚ) (hv : 0 < v) :
    hydration_pct v = 220.462 ∧
    pyRound (hydration_pct v) 1 = 220.5 ∧
    (∀ (date : ℕ) (raw expo : ℤ), decodeValue raw expo = v →
      processMeasures date [⟨some 77, some raw, some expo⟩] true =
        [.measW date .hydration 220.5]) := by
  have hv0 : v ≠ 0 := ne_of_gt hv
  have hconst : hydration_pct v = 220.462 := by
    rw [hydration_pct, div_div_eq_mul_div, mul_comm v (2.20462 : ℚ), mul_div_assoc,
      div_self hv0, mul_one]
    norm_num
  have hround : pyRound (hydration_pct v) 1 = 220.5 := by
    rw [hconst]
    norm_num [pyRound, roundHalfEven, Rat.floor]
  refine ⟨hconst, hround, fun date raw expo hdec => ?_⟩
  simp only [processMeasures]
  norm_num [hdec, hconst]
  rw [if_pos hv]
  norm_num [pyRound, roundHalfEven, Rat.floor]

/-- Witness for C9 at the concrete sample value 33 kg. -/
theorem C9_hydration_constant_witness :
    (0 : ℚ) < 33 ∧ hydration_pct 33 = 220.462 :=
  ⟨by decide, (C9_hydration_constant 33 (by decide)).1⟩

/-- C5: a type-1 sample decodes to raw * 10 ^ expo kilograms, converts to
pounds by multiplying with 2.20462, and is written exactly when the
converted pounds lie in the closed interval [30, 350]; 29.9 is rejected
while 30.0 and 350.0 are accepted. -/
theorem C5_weight_normalization :
    (∀ raw expo : ℤ, decodeValue raw expo = (raw : ℚ) * (10 : ℚ) ^ expo) ∧
    (∀ raw expo : ℤ,
      weightLb (decodeValue raw expo) = (raw : ℚ) * (10 : ℚ) ^ expo * 2.20462) ∧
    (∀ (raw expo : ℤ) (date : ℕ),
      processMeasures date [⟨some 1, some raw, some expo⟩] false =
        if weightInBounds (weightLb (decodeValue raw expo)) then
          [.weightW date (pyRound (weightLb (decodeValue raw expo)) 2)]
        else []) ∧
    (∀ w : ℚ, weightInBounds w = true ↔ 30 ≤ w ∧ w ≤ 350) ∧
    weightInBounds (299/10) = false ∧
    weightInBounds 30 = true ∧
    weightInBounds 350 = true := by
  refine ⟨fun raw expo => rfl, fun raw expo => rfl, fun raw expo date => ?_,
    fun w => ?_, by norm_num [weightInBounds], by norm_num [weightInBounds],
    by norm_num [weightInBounds]⟩
  · simp only [processMeasures]
    by_cases h : weightInBounds (weightLb (decodeValue raw expo)) = true
    · simp [h]
    · simp [h]
  · simp [weightInBounds]

/-- The daily_health_sync write path performs a single attempt: a timeout
on the PUT or POST escapes the function as an uncaught exception instead
of being retried.  This refutes the claim that every create or update
write retries timeouts, at the concrete input below. -/
theorem C2_counterexample :
    DailySync.wger_post_measurement ⟨[], [], [], 0⟩ (.http 200 []) .timeoutExn
      1 1 5 "" = .raised := rfl

/-- C2 (amended): in the backfill write path a timed-out attempt is
retried after a 2-second sleep, up to 3 attempts total and never a 4th,
after which the point is reported as a timeout failure, while a non-2xx
status is reported immediately with the status code and never retried; in
the daily_health_sync write path the single attempt is not retried and a
timeout propagates as an exception. -/
theorem C2_retry_bound :
    (∀ (resps : ℕ → Backfill.WAResp) (b : Bool),
      (Backfill.wger_post_measurement_retry resps b).attempts ≤ 3) ∧
    (∀ (resps : ℕ → Backfill.WAResp) (b : Bool),
      resps 0 = .timeout → resps 1 = .timeout → resps 2 = .timeout →
      Backfill.wger_post_measurement_retry resps b = ⟨3, [2, 2], .timeoutFail⟩) ∧
    (∀ (resps : ℕ → Backfill.WAResp) (b : Bool) (code : ℕ),
      code ≠ 200 → code ≠ 201 → resps 0 = .httpStatus code →
      Backfill.wger_post_measurement_retry resps b = ⟨1, [], .failedStatus code⟩) ∧
    (∀ (s : WgerState) (q : QueryOutcome) (cat date : ℕ) (v : ℚ) (notes : String),
      DailySync.wger_post_measurement s q .timeoutExn cat date v notes = .raised) := by
  refine ⟨fun resps b => attemptLoop_attempts_le resps 3 _ 3 0,
    fun resps b h0 h1 h2 => ?_, fun resps b code hc0 hc1 h0 => ?_,
    fun s q cat date v notes => rfl⟩
  · unfold Backfill.wger_post_measurement_retry
    unfold Backfill.attemptLoop
    rw [h0]
    norm_num
    unfold Backfill.attemptLoop
    rw [h1]
    norm_num
    unfold Backfill.attemptLoop
    rw [h2]
    norm_num
  · unfold Backfill.wger_post_measurement_retry
    unfold Backfill.attemptLoop
    rw [h0]
    have : (code == 200 || code == 201) = false := by
      simp [hc0, hc1]
    simp [this]

/-- Witness for C2 at three consecutive timeouts. -/
theorem C2_retry_bound_witness :
    Backfill.wger_post_measurement_retry (fun _ => .timeout) false =
      ⟨3, [2, 2], .timeoutFail⟩ :=
  C2_retry_bound.2.1 (fun _ => .timeout) false rfl rfl rfl

/-- C8: a failed existence query (raised exception or non-200 status) is
swallowed, existing_id stays None, and the engine proceeds to create the
point: the function returns normally with a created action and the point
appended at a fresh id. -/
theorem C8_query_failure_creates
    (s : WgerState) (q : QueryOutcome) (cat date : ℕ) (v : ℚ) (notes : String)
    (hq : queryFailed q = true) :
    existingIdOf q = none ∧
    DailySync.wger_post_measurement s q (.status 201) cat date v notes =
      .success ⟨s.points ++ [⟨s.nextId, cat, date, v, notes.take 100⟩],
                s.weights, s.cats, s.nextId + 1⟩ .created := by
  have hnone : existingIdOf q = none := by
    cases q with
    | http status ids =>
        have : (status == 200) = false := by
          simpa [queryFailed] using hq
        simp [existingIdOf, this]
    | exn => rfl
  refine ⟨hnone, ?_⟩
  simp only [DailySync.wger_post_measurement, hnone, applyMeasurementWrite]
  rfl

/-- Updating the freshly created point leaves a points list unchanged when
every pre-existing id is below the fresh id: only the fresh point matches
the addressed id, and rewriting it with the same payload is the identity. -/
theorem map_update_points (n cat date : ℕ) (v : ℚ) (notes : String) :
    ∀ l : List MPoint, (∀ p ∈ l, p.id < n) →
      (l ++ [(⟨n, cat, date, v, notes⟩ : MPoint)]).map (fun p =>
          if p.id == n then updatePoint cat date v notes p else p) =
        l ++ [(⟨n, cat, date, v, notes⟩ : MPoint)] := by
  intro l
  induction l with
  | nil => intro h; simp [updatePoint]
  | cons a t ih =>
      intro h
      have ha : a.id < n := h a (List.mem_cons_self a t)
      have hbeq : (a.id == n) = false := by
        simp [Nat.ne_of_lt ha]
      simp only [List.cons_append, List.map_cons, hbeq, Bool.false_eq_true, if_false]
      rw [ih (fun p hp => h p (List.mem_cons_of_mem a hp))]

/-- The analogous identity for the weights list. -/
theorem map_update_weights (n date : ℕ) (w : ℚ) :
    ∀ l : List WeightEntry, (∀ e ∈ l, e.id < n) →
      (l ++ [(⟨n, date, w⟩ : WeightEntry)]).map (fun e =>
          if e.id == n then updateWeightEntry date w e else e) =
        l ++ [(⟨n, date, w⟩ : WeightEntry)] := by
  intro l
  induction l with
  | nil => intro h; simp [updateWeightEntry]
  | cons a t ih =>
      intro h
      have ha : a.id < n := h a (List.mem_cons_self a t)
      have hbeq : (a.id == n) = false := by
        simp [Nat.ne_of_lt ha]
      simp only [List.cons_append, List.map_cons, hbeq, Bool.false_eq_true, if_false]
      rw [ih (fun e he => h e (List.mem_cons_of_mem a he))]

/-- A measurement upsert whose lookup returns exactly one id is a PUT to
that id, rewriting the addressed point with the payload. -/
theorem post_measurement_found (s : WgerState) (i cat date : ℕ) (v : ℚ)
    (notes : String) :
    DailySync.wger_post_measurement s (.http 200 [i]) (.status 200) cat date v notes =
      .success ⟨s.points.map (fun p =>
          if p.id == i then updatePoint cat date v (notes.take 100) p else p),
        s.weights, s.cats, s.nextId⟩ .updated := rfl

/-- A weight upsert whose lookup returns exactly one id is a PUT to that
id, rewriting the addressed entry with the payload. -/
theorem post_weight_found (s : WgerState) (i date : ℕ) (wlb : ℚ) :
    DailySync.wger_post_weight s (.http 200 [i]) (.status 200) date wlb =
      .success ⟨s.points, s.weights.map (fun e =>
          if e.id == i then updateWeightEntry date (pyRound wlb 2) e else e),
        s.cats, s.nextId⟩ .updated := rfl

/-- C1: against a well-behaved destination holding no point for the key,
the upsert first queries for an existing point by (category, date) (by
date alone for weight), creates on absence, and a second identical run
finds the point just created and updates it in place at the found id:
the action sequence is (created, updated) and exactly one point (and one
weight entry) for the key exists afterwards, never two. -/
theorem C1_upsert_idempotent
    (s : WgerState) (cat date : ℕ) (v : ℚ) (notes : String) (wlb : ℚ)
    (hb : ∀ p ∈ s.points, p.id < s.nextId)
    (hw : ∀ e ∈ s.weights, e.id < s.nextId)
    (h0 : countMatching s cat date = 0)
    (h0w : countWeightOn s date = 0) :
    ∃ s1 t1 : WgerState,
      DailySync.wger_post_measurement_ok s cat date v notes = .success s1 .created ∧
      countMatching s1 cat date = 1 ∧
      queryIds s1 cat date = [s.nextId] ∧
      DailySync.wger_post_measurement_ok s1 cat date v notes = .success s1 .updated ∧
      DailySync.wger_post_weight_ok s date wlb = .success t1 .created ∧
      countWeightOn t1 date = 1 ∧
      weightIds t1 date = [s.nextId] ∧
      DailySync.wger_post_weight_ok t1 date wlb = .success t1 .updated := by
  have hfilter0 : s.points.filter (fun p => pointMatches p cat date) = [] :=
    List.length_eq_zero.mp h0
  have hfilter0w : s.weights.filter (fun e => e.date == date) = [] :=
    List.length_eq_zero.mp h0w
  have hq1 : queryIds s cat date = [] := by
    simp only [queryIds]
    rw [hfilter0]
    rfl
  have hq1w : weightIds s date = [] := by
    simp only [weightIds]
    rw [hfilter0w]
    rfl
  have hq2 : ((s.points ++ [(⟨s.nextId, cat, date, v, notes.take 100⟩ : MPoint)]).filter
      (fun p => pointMatches p cat date)).map (fun p => p.id) = [s.nextId] := by
    rw [List.filter_append, hfilter0]
    simp [pointMatches]
  have hq2w : ((s.weights ++ [(⟨s.nextId, date, pyRound wlb 2⟩ : WeightEntry)]).filter
      (fun e => e.date == date)).map (fun e => e.id) = [s.nextId] := by
    rw [List.filter_append, hfilter0w]
    simp
  refine ⟨⟨s.points ++ [⟨s.nextId, cat, date, v, notes.take 100⟩],
      s.weights, s.cats, s.nextId + 1⟩,
    ⟨s.points, s.weights ++ [⟨s.nextId, date, pyRound wlb 2⟩],
      s.cats, s.nextId + 1⟩, ?_, ?_, ?_, ?_, ?_, ?_, ?_, ?_⟩
  · simp only [DailySync.wger_post_measurement_ok]
    rw [hq1]
    rfl
  · show ((s.points ++ [(⟨s.nextId, cat, date, v, notes.take 100⟩ : MPoint)]).filter
        (fun p => pointMatches p cat date)).length = 1
    rw [List.filter_append, hfilter0]
    simp [pointMatches]
  · exact hq2
  · simp only [DailySync.wger_post_measurement_ok]
    rw [show queryIds
        (⟨s.points ++ [⟨s.nextId, cat, date, v, notes.take 100⟩],
          s.weights, s.cats, s.nextId + 1⟩ : WgerState) cat date = [s.nextId] from hq2]
    rw [post_measurement_found]
    show PostResult.success
        ⟨(s.points ++ [(⟨s.nextId, cat, date, v, notes.take 100⟩ : MPoint)]).map
            (fun p => if p.id == s.nextId then
              updatePoint cat date v (notes.take 100) p else p),
          s.weights, s.cats, s.nextId + 1⟩ .updated = _
    rw [map_update_points s.nextId cat date v (notes.take 100) s.points hb]
  · simp only [DailySync.wger_post_weight_ok]
    rw [hq1w]
    rfl
  · show ((s.weights ++ [(⟨s.nextId, date, pyRound wlb 2⟩ : WeightEntry)]).filter
        (fun e => e.date == date)).length = 1
    rw [List.filter_append, hfilter0w]
    simp
  · exact hq2w
  · simp only [DailySync.wger_post_weight_ok]
    rw [show weightIds
        (⟨s.points, s.weights ++ [⟨s.nextId, date, pyRound wlb 2⟩],
          s.cats, s.nextId + 1⟩ : WgerState) date = [s.nextId] from hq2w]
    rw [post_weight_found]
    show PostResult.success
        ⟨s.points,
          (s.weights ++ [(⟨s.nextId, date, pyRound wlb 2⟩ : WeightEntry)]).map
            (fun e => if e.id == s.nextId then
              updateWeightEntry date (pyRound wlb 2) e else e),
          s.cats, s.nextId + 1⟩ .updated = _
    rw [map_update_weights s.nextId date (pyRound wlb 2) s.weights hw]

/-- Witness for C1 at the empty destination. -/
theorem C1_upsert_idempotent_witness :
    countMatching ⟨[], [], [], 0⟩ 1 2 = 0 ∧
    countWeightOn ⟨[], [], [], 0⟩ 2 = 0 ∧
    ∃ s1 t1 : WgerState,
      DailySync.wger_post_measurement_ok ⟨[], [], [], 0⟩ 1 2 5 "n" =
        .success s1 .created ∧
      countMatching s1 1 2 = 1 ∧
      queryIds s1 1 2 = [0] ∧
      DailySync.wger_post_measurement_ok s1 1 2 5 "n" = .success s1 .updated ∧
      DailySync.wger_post_weight_ok ⟨[], [], [], 0⟩ 2 150 = .success t1 .created ∧
      countWeightOn t1 2 = 1 ∧
      weightIds t1 2 = [0] ∧
      DailySync.wger_post_weight_ok t1 2 150 = .success t1 .updated :=
  ⟨rfl, rfl,
    C1_upsert_idempotent ⟨[], [], [], 0⟩ 1 2 5 "n" 150
      (by simp) (by simp) rfl rfl⟩

/-- A weightentry request passes the weight filter. -/
theorem weightWrites_cons_weightW (d : ℕ) (w : ℚ) (l : List WriteReq) :
    weightWrites (.weightW d w :: l) = .weightW d w :: weightWrites l := by
  simp [weightWrites, List.filter_cons, WriteReq.isWeight]

/-- A measurement request is dropped by the weight filter. -/
theorem weightWrites_cons_measW (d : ℕ) (c : BodyCat) (w : ℚ) (l : List WriteReq) :
    weightWrites (.measW d c w :: l) = weightWrites l := by
  simp [weightWrites, List.filter_cons, WriteReq.isWeight]

/-- Once a weight was posted in a group, the rest of the group produces no
further weightentry writes. -/
theorem weightWrites_processMeasures_true (date : ℕ) :
    ∀ ms : List Measure, weightWrites (processMeasures date ms true) = [] := by
  intro ms
  induction ms with
  | nil => rfl
  | cons m rest ih =>
      rcases m with ⟨mt, mv, mu⟩
      cases mv with
      | none => simpa only [processMeasures] using ih
      | some raw =>
          cases mu with
          | none => simpa only [processMeasures] using ih
          | some expo =>
              simp only [processMeasures, Bool.not_true, Bool.and_false,
                Bool.false_eq_true, if_false]
              split_ifs <;> simp [weightWrites_cons_measW, ih]

/-- With a fresh flag, the weightentry writes of a group are exactly the
first valid weight sample of the group, rounded to 2 decimals. -/
theorem weightWrites_processMeasures_false (date : ℕ) :
    ∀ ms : List Measure,
      weightWrites (processMeasures date ms false) =
        (firstValidWeight ms).toList.map (fun w => .weightW date (pyRound w 2)) := by
  intro ms
  induction ms with
  | nil => rfl
  | cons m rest ih =>
      rcases m with ⟨mt, mv, mu⟩
      cases mv with
      | none =>
          simp only [processMeasures, firstValidWeight, List.findSome?_cons,
            validWeightSample]
          exact ih
      | some raw =>
          cases mu with
          | none =>
              simp only [processMeasures, firstValidWeight, List.findSome?_cons,
                validWeightSample]
              exact ih
          | some expo =>
              simp only [processMeasures, Bool.not_false, Bool.and_true,
                firstValidWeight, List.findSome?_cons, validWeightSample]
              by_cases h1 : (mt == some 1) = true
              · by_cases h2 : weightInBounds (weightLb (decodeValue raw expo)) = true
                · simp [h1, h2, weightWrites_cons_weightW,
                    weightWrites_processMeasures_true date rest]
                · simp only [h1, h2, Bool.true_and, if_true, Bool.false_eq_true,
                    if_false]
                  simpa [firstValidWeight] using ih
              · have h1f : (mt == some 1) = false := by
                  simpa using h1
                simp only [h1f, Bool.false_and, Bool.false_eq_true, if_false]
                split_ifs <;> first
                  | (rw [weightWrites_cons_measW]; exact ih)
                  | exact ih

/-- A weightentry request is dropped by the body-category filter. -/
theorem bodyWrites_cons_weightW (c : BodyCat) (d : ℕ) (w : ℚ) (l : List WriteReq) :
    bodyWrites c (.weightW d w :: l) = bodyWrites c l := by
  simp [bodyWrites, List.filter_cons]

/-- A measurement request passes the body-category filter exactly when its
category matches. -/
theorem bodyWrites_cons_measW (c c2 : BodyCat) (d : ℕ) (w : ℚ) (l : List WriteReq) :
    bodyWrites c (.measW d c2 w :: l) =
      if c2 == c then .measW d c2 w :: bodyWrites c l else bodyWrites c l := by
  simp only [bodyWrites, List.filter_cons]

/-- Body-fat samples are all written, one write per complete type-6
sample, independently of the weight_posted flag. -/
theorem bodyfat_count_processMeasures (date : ℕ) :
    ∀ (ms : List Measure) (wp : Bool),
      (bodyWrites .bodyfat (processMeasures date ms wp)).length =
        (ms.filter (isBodyCompSample 6)).length := by
  intro ms
  induction ms with
  | nil => intro wp; rfl
  | cons m rest ih =>
      intro wp
      rcases m with ⟨mt, mv, mu⟩
      cases mv with
      | none =>
          simp only [processMeasures, List.filter_cons, isBodyCompSample]
          simpa using ih wp
      | some raw =>
          cases mu with
          | none =>
              simp only [processMeasures, List.filter_cons, isBodyCompSample]
              simpa using ih wp
          | some expo =>
              simp only [processMeasures]
              by_cases h1 : (mt == some 1 && !wp) = true
              · have hmt : mt = some 1 := by
                  rw [Bool.and_eq_true] at h1
                  simpa using h1.1
                subst hmt
                rw [if_pos h1]
                by_cases h2 : weightInBounds (weightLb (decodeValue raw expo)) = true
                · rw [if_pos h2, bodyWrites_cons_weightW, ih true]
                  simp [List.filter_cons, isBodyCompSample]
                · rw [if_neg h2]
                  rw [ih wp]
                  simp [List.filter_cons, isBodyCompSample]
              · rw [if_neg h1]
                by_cases h6 : (mt == some 6) = true
                · have hmt : mt = some 6 := by simpa using h6
                  subst hmt
                  rw [if_pos h6, bodyWrites_cons_measW]
                  simp [List.filter_cons, isBodyCompSample, ih wp]
                · have h6f : (mt == some 6) = false := by simpa using h6
                  rw [if_neg h6]
                  have hfill : ((⟨mt, some raw, some expo⟩ : Measure) :: rest).filter
                      (isBodyCompSample 6) = rest.filter (isBodyCompSample 6) := by
                    simp [List.filter_cons, isBodyCompSample, h6f]
                  rw [hfill]
                  split_ifs <;> first
                    | (rw [bodyWrites_cons_measW]; simpa using ih wp)
                    | exact ih wp

/-- Muscle-mass samples are all written, one write per complete type-76
sample, independently of the weight_posted flag. -/
theorem muscle_count_processMeasures (date : ℕ) :
    ∀ (ms : List Measure) (wp : Bool),
      (bodyWrites .muscle (processMeasures date ms wp)).length =
        (ms.filter (isBodyCompSample 76)).length := by
  intro ms
  induction ms with
  | nil => intro wp; rfl
  | cons m rest ih =>
      intro wp
      rcases m with ⟨mt, mv, mu⟩
      cases mv with
      | none =>
          simp only [processMeasures, List.filter_cons, isBodyCompSample]
          simpa using ih wp
      | some raw =>
          cases mu with
          | none =>
              simp only [processMeasures, List.filter_cons, isBodyCompSample]
              simpa using ih wp
          | some expo =>
              simp only [processMeasures]
              by_cases h1 : (mt == some 1 && !wp) = true
              · have hmt : mt = some 1 := by
                  rw [Bool.and_eq_true] at h1
                  simpa using h1.1
                subst hmt
                rw [if_pos h1]
                by_cases h2 : weightInBounds (weightLb (decodeValue raw expo)) = true
                · rw [if_pos h2, bodyWrites_cons_weightW, ih true]
                  simp [List.filter_cons, isBodyCompSample]
                · rw [if_neg h2]
                  rw [ih wp]
                  simp [List.filter_cons, isBodyCompSample]
              · rw [if_neg h1]
                by_cases h76 : (mt == some 76) = true
                · have hmt : mt = some 76 := by simpa using h76
                  subst hmt
                  have h6f : ((some 76 : Option ℤ) == some 6) = false := by decide
                  rw [if_neg (by simp [h6f] : ¬ ((some 76 : Option ℤ) == some 6) = true)]
                  rw [if_pos h76, bodyWrites_cons_measW]
                  simp [List.filter_cons, isBodyCompSample, ih wp]
                · have h76f : (mt == some 76) = false := by simpa using h76
                  have hfill : ((⟨mt, some raw, some expo⟩ : Measure) :: rest).filter
                      (isBodyCompSample 76) = rest.filter (isBodyCompSample 76) := by
                    simp [List.filter_cons, isBodyCompSample, h76f]
                  rw [hfill]
                  split_ifs <;> first
                    | (rw [bodyWrites_cons_measW]; simpa using ih wp)
                    | exact ih wp

/-- Bone-mass samples are all written, one write per complete type-88
sample, independently of the weight_posted flag. -/
theorem bone_count_processMeasures (date : ℕ) :
    ∀ (ms : List Measure) (wp : Bool),
      (bodyWrites .bone (processMeasures date ms wp)).length =
        (ms.filter (isBodyCompSample 88)).length := by
  intro ms
  induction ms with
  | nil => intro wp; rfl
  | cons m rest ih =>
      intro wp
      rcases m with ⟨mt, mv, mu⟩
      cases mv with
      | none =>
          simp only [processMeasures, List.filter_cons, isBodyCompSample]
          simpa using ih wp
      | some raw =>
          cases mu with
          | none =>
              simp only [processMeasures, List.filter_cons, isBodyCompSample]
              simpa using ih wp
          | some expo =>
              simp only [processMeasures]
              by_cases h1 : (mt == some 1 && !wp) = true
              · have hmt : mt = some 1 := by
                  rw [Bool.and_eq_true] at h1
                  simpa using h1.1
                subst hmt
                rw [if_pos h1]
                by_cases h2 : weightInBounds (weightLb (decodeValue raw expo)) = true
                · rw [if_pos h2, bodyWrites_cons_weightW, ih true]
                  simp [List.filter_cons, isBodyCompSample]
                · rw [if_neg h2]
                  rw [ih wp]
                  simp [List.filter_cons, isBodyCompSample]
              · rw [if_neg h1]
                by_cases h88 : (mt == some 88) = true
                · have hmt : mt = some 88 := by simpa using h88
                  subst hmt
                  rw [if_neg (by decide : ¬ ((some 88 : Option ℤ) == some 6) = true)]
                  rw [if_neg (by decide : ¬ ((some 88 : Option ℤ) == some 76) = true)]
                  rw [if_neg (by decide : ¬ ((some 88 : Option ℤ) == some 77) = true)]
                  rw [if_pos h88, bodyWrites_cons_measW]
                  simp [List.filter_cons, isBodyCompSample, ih wp]
                · have h88f : (mt == some 88) = false := by simpa using h88
                  have hfill : ((⟨mt, some raw, some expo⟩ : Measure) :: rest).filter
                      (isBodyCompSample 88) = rest.filter (isBodyCompSample 88) := by
                    simp [List.filter_cons, isBodyCompSample, h88f]
                  rw [hfill]
                  split_ifs <;> first
                    | (rw [bodyWrites_cons_measW]; simpa using ih wp)
                    | exact ih wp

/-- The weightentry writes of a whole weight response decompose group by
group: every non-skipped group contributes its own writes computed with a
fresh weight_posted flag, regardless of other groups on the same day. -/
theorem weightWrites_processMeasureGrps :
    ∀ grps : List MeasureGrp,
      weightWrites (processMeasureGrps grps) =
        grps.flatMap (fun g =>
          if g.date.getD 0 == 0 then []
          else weightWrites
            (processMeasures (tsToDay (g.date.getD 0)) g.measures false)) := by
  intro grps
  induction grps with
  | nil => rfl
  | cons g rest ih =>
      simp only [processMeasureGrps, List.flatMap_cons]
      by_cases h : (g.date.getD 0 == 0) = true
      · rw [if_pos h, if_pos h, ih]
        rfl
      · rw [if_neg h, if_neg h]
        simp only [weightWrites, List.filter_append]
        rw [show List.filter WriteReq.isWeight (processMeasureGrps rest) =
          weightWrites (processMeasureGrps rest) from rfl, ih]
        rfl

/-- Two measure groups with timestamps on the same calendar day, each
carrying a valid type-1 sample, both produce a weightentry write for that
day: the deduplication flag is reset per group, not per calendar day, so
the second same-day sample is not dropped and is written again (becoming
an update of the first).  This refutes the per-calendar-day reading of
the claim at this concrete input. -/
theorem C6_counterexample :
    processMeasureGrps
        [⟨some 86400, [⟨some 1, some 70000, some (-3)⟩]⟩,
         ⟨some 86460, [⟨some 1, some 71000, some (-3)⟩]⟩] =
      [.weightW 1 154.32, .weightW 1 156.53] := by
  have h70 : weightInBounds (weightLb (decodeValue 70000 (-3))) = true := by
    norm_num [weightInBounds, weightLb, decodeValue]
  have h71 : weightInBounds (weightLb (decodeValue 71000 (-3))) = true := by
    norm_num [weightInBounds, weightLb, decodeValue]
  have r70 : pyRound (weightLb (decodeValue 70000 (-3))) 2 = 154.32 := by
    norm_num [pyRound, roundHalfEven, Rat.floor, weightLb, decodeValue]
  have r71 : pyRound (weightLb (decodeValue 71000 (-3))) 2 = 156.53 := by
    norm_num [pyRound, roundHalfEven, Rat.floor, weightLb, decodeValue]
  simp only [processMeasureGrps, processMeasures, tsToDay]
  norm_num [h70, h71, r70, r71]

/-- C6 (amended): exactly one weight sample per measure group — the first
valid one in the group order — is accepted, and later weight samples of
the same group are dropped without a write; but the flag is per group, so
a valid weight sample in another group of the same calendar day is
written again.  Fat, muscle and bone samples are all kept and written,
one write per complete sample, independently of the flag; a hydration
sample is written only when a weight was already posted in its group. -/
theorem C6_weight_first_per_group :
    (∀ (date : ℕ) (ms : List Measure),
      weightWrites (processMeasures date ms true) = []) ∧
    (∀ (date : ℕ) (ms : List Measure),
      weightWrites (processMeasures date ms false) =
        (firstValidWeight ms).toList.map (fun w => .weightW date (pyRound w 2))) ∧
    (∀ (date : ℕ) (ms : List Measure) (wp : Bool),
      (bodyWrites .bodyfat (processMeasures date ms wp)).length =
        (ms.filter (isBodyCompSample 6)).length) ∧
    (∀ (date : ℕ) (ms : List Measure) (wp : Bool),
      (bodyWrites .muscle (processMeasures date ms wp)).length =
        (ms.filter (isBodyCompSample 76)).length) ∧
    (∀ (date : ℕ) (ms : List Measure) (wp : Bool),
      (bodyWrites .bone (processMeasures date ms wp)).length =
        (ms.filter (isBodyCompSample 88)).length) ∧
    (∀ grps : List MeasureGrp,
      weightWrites (processMeasureGrps grps) =
        grps.flatMap (fun g =>
          if g.date.getD 0 == 0 then []
          else weightWrites
            (processMeasures (tsToDay (g.date.getD 0)) g.measures false))) :=
  ⟨weightWrites_processMeasures_true, weightWrites_processMeasures_false,
    bodyfat_count_processMeasures, muscle_count_processMeasures,
    bone_count_processMeasures, weightWrites_processMeasureGrps⟩

/-- A cached snapshot with a falsy (empty-object) activity payload exists
for the exact range key, yet backfill_withings still calls the provider:
the reload check refetches whenever a deserialized payload is empty, so a
stored snapshot does not by itself prevent a network call.  This refutes
the unconditional reading of the cache claim at this concrete input. -/
theorem C3_counterexample :
    (fun k => if k = ("a", "b") then
        some (⟨0, "a", "b", .emptyDict, .emptyDict⟩ : WithingsSnapshot)
      else none) ("a", "b") =
      some (⟨0, "a", "b", .emptyDict, .emptyDict⟩ : WithingsSnapshot) ∧
    (Backfill.backfill_withings_load
      (fun k => if k = ("a", "b") then
          some (⟨0, "a", "b", .emptyDict, .emptyDict⟩ : WithingsSnapshot)
        else none)
      (.withDays []) (.withGrps []) 5 "a" "b").2.2 = true := ⟨rfl, rfl⟩

/-- C3 (amended): a snapshot file for the exact range key whose stored
activity and weight payloads are non-empty (as is the case for every
snapshot the program writes from a successful fetch) is deserialized and
returned with no provider call and no cache change; when no snapshot
exists the provider is fetched and the full response is persisted under
the range key together with the fetch timestamp and the requested range,
so a second run over the same range reads only the cache; the sleep
backfill returns an existing snapshot unconditionally and stamps and
persists a fresh fetch before posting. -/
theorem C3_cache_read_through :
    (∀ (cache : String × String → Option WithingsSnapshot)
       (fa : ActivityBody) (fw : WeightBody) (now : ℕ) (sd ed : String)
       (snap : WithingsSnapshot),
      cache (sd, ed) = some snap →
      snap.activity.truthy = true → snap.weight.truthy = true →
      Backfill.backfill_withings_load cache fa fw now sd ed =
        ((snap.activity, snap.weight), cache, false)) ∧
    (∀ (cache : String × String → Option WithingsSnapshot)
       (fa : ActivityBody) (fw : WeightBody) (now : ℕ) (sd ed : String),
      cache (sd, ed) = none →
      (Backfill.backfill_withings_load cache fa fw now sd ed).1 = (fa, fw) ∧
      (Backfill.backfill_withings_load cache fa fw now sd ed).2.2 = true ∧
      (Backfill.backfill_withings_load cache fa fw now sd ed).2.1 (sd, ed) =
        some ⟨now, sd, ed, fa, fw⟩) ∧
    (∀ (cache : String × String → Option WithingsSnapshot)
       (fa : ActivityBody) (fw : WeightBody) (now now2 : ℕ) (sd ed : String),
      cache (sd, ed) = none →
      fa.truthy = true → fw.truthy = true →
      Backfill.backfill_withings_load
          ((Backfill.backfill_withings_load cache fa fw now sd ed).2.1)
          fa fw now2 sd ed =
        ((fa, fw), (Backfill.backfill_withings_load cache fa fw now sd ed).2.1,
          false)) ∧
    (∀ (α : Type) (cache : String × String → Option (SleepSnapshot α))
       (fr : Option α) (now : ℕ) (sd ed : String) (snap : SleepSnapshot α),
      cache (sd, ed) = some snap →
      SleepBackfill.backfill_sleep_number_load cache fr now sd ed =
        (some snap, cache, false)) ∧
    (∀ (α : Type) (cache : String × String → Option (SleepSnapshot α))
       (p : α) (now : ℕ) (sd ed : String),
      cache (sd, ed) = none →
      (SleepBackfill.backfill_sleep_number_load cache (some p) now sd ed).1 =
        some ⟨now, sd, ed, p⟩ ∧
      (SleepBackfill.backfill_sleep_number_load cache (some p) now sd ed).2.2 =
        true ∧
      (SleepBackfill.backfill_sleep_number_load cache (some p) now sd ed).2.1
          (sd, ed) = some ⟨now, sd, ed, p⟩) := by
  refine ⟨fun cache fa fw now sd ed snap hc ha hw => ?_,
    fun cache fa fw now sd ed hc => ?_,
    fun cache fa fw now now2 sd ed hc ha hw => ?_,
    fun α cache fr now sd ed snap hc => ?_,
    fun α cache p now sd ed hc => ?_⟩
  · simp [Backfill.backfill_withings_load, hc, ha, hw]
  · simp [Backfill.backfill_withings_load, hc, ActivityBody.truthy, WeightBody.truthy]
  · have h1 : (Backfill.backfill_withings_load cache fa fw now sd ed).2.1 (sd, ed) =
        some ⟨now, sd, ed, fa, fw⟩ := by
      simp [Backfill.backfill_withings_load, hc, ActivityBody.truthy, WeightBody.truthy]
    generalize hC : (Backfill.backfill_withings_load cache fa fw now sd ed).2.1 = c2 at h1 ⊢
    simp [Backfill.backfill_withings_load, h1, ha, hw]
  · simp [SleepBackfill.backfill_sleep_number_load, hc]
  · simp [SleepBackfill.backfill_sleep_number_load, hc]

/-- Witness for C3 at an empty cache and concrete non-empty payloads. -/
theorem C3_cache_read_through_witness :
    ((fun _ => none : String × String → Option WithingsSnapshot) ("s", "e") = none) ∧
    (Backfill.backfill_withings_load (fun _ => none)
        (.withDays []) (.withGrps []) 7 "s" "e").1 = (.withDays [], .withGrps []) :=
  ⟨rfl, ((C3_cache_read_through.2.1) (fun _ => none)
    (.withDays []) (.withGrps []) 7 "s" "e" rfl).1⟩

/-- C7: category resolution returns the id of an exact (name, unit) match
without creating; from a state without a match, a create under a 2xx
response yields a fresh id and a second resolve returns that same id with
no state change and no second create; the same name under a different
unit creates a distinct second category; and a non-2xx create response
raises instead of returning an id, leaving the state unchanged. -/
theorem C7_category_resolution :
    (∀ (s : WgerState) (st : ℕ) (name unit : String) (i : ℕ),
      findCategory s.cats name unit = some i →
      wger_get_or_create_category s st name unit = (s, .found i)) ∧
    (∀ (s : WgerState) (name unit : String),
      findCategory s.cats name unit = none →
      (wger_get_or_create_category s 201 name unit).2 = .created s.nextId ∧
      wger_get_or_create_category
          (wger_get_or_create_category s 201 name unit).1 201 name unit =
        ((wger_get_or_create_category s 201 name unit).1, .found s.nextId)) ∧
    (∀ (s : WgerState) (name unit unit2 : String),
      findCategory s.cats name unit = none →
      findCategory s.cats name unit2 = none →
      unit ≠ unit2 →
      (wger_get_or_create_category
          (wger_get_or_create_category s 201 name unit).1 201 name unit2).2 =
        .created (s.nextId + 1) ∧ s.nextId + 1 ≠ s.nextId) ∧
    (∀ (s : WgerState) (st : ℕ) (name unit : String),
      st ≠ 200 → st ≠ 201 →
      findCategory s.cats name unit = none →
      wger_get_or_create_category s st name unit = (s, .raisedErr st)) := by
  have hfilter : ∀ (cats : List MCategory) (name unit : String),
      findCategory cats name unit = none →
      cats.filter (fun c => c.name == name && c.unit == unit) = [] := by
    intro cats name unit h
    simpa [findCategory] using h
  refine ⟨fun s st name unit i h => ?_, fun s name unit h => ?_,
    fun s name unit unit2 h h2 hu => ?_, fun s st name unit h0 h1 h => ?_⟩
  · simp [wger_get_or_create_category, h]
  · have hcreate : wger_get_or_create_category s 201 name unit =
        (⟨s.points, s.weights, s.cats ++ [⟨s.nextId, name, unit⟩], s.nextId + 1⟩,
          .created s.nextId) := by
      simp [wger_get_or_create_category, h]
    have hfind : findCategory (s.cats ++ [⟨s.nextId, name, unit⟩]) name unit =
        some s.nextId := by
      simp [findCategory, List.filter_append, hfilter s.cats name unit h]
    refine ⟨by rw [hcreate], ?_⟩
    rw [hcreate]
    simp [wger_get_or_create_category, hfind]
  · have hcreate : wger_get_or_create_category s 201 name unit =
        (⟨s.points, s.weights, s.cats ++ [⟨s.nextId, name, unit⟩], s.nextId + 1⟩,
          .created s.nextId) := by
      simp [wger_get_or_create_category, h]
    have hfind : findCategory (s.cats ++ [⟨s.nextId, name, unit⟩]) name unit2 =
        none := by
      simp [findCategory, List.filter_append, hfilter s.cats name unit2 h2, hu]
    rw [hcreate]
    exact ⟨by simp [wger_get_or_create_category, hfind], by omega⟩
  · have hst : (st == 200 || st == 201) = false := by simp [h0, h1]
    simp [wger_get_or_create_category, h, hst]

/-- Witness for C7 at a concrete state holding a Steps category. -/
theorem C7_category_resolution_witness :
    findCategory [⟨5, "Steps", "ksteps"⟩] "Steps" "ksteps" = some 5 ∧
    wger_get_or_create_category ⟨[], [], [⟨5, "Steps", "ksteps"⟩], 6⟩ 201
        "Steps" "ksteps" =
      (⟨[], [], [⟨5, "Steps", "ksteps"⟩], 6⟩, .found 5) :=
  ⟨rfl, C7_category_resolution.1 ⟨[], [], [⟨5, "Steps", "ksteps"⟩], 6⟩ 201
    "Steps" "ksteps" 5 rfl⟩

set_option maxRecDepth 8000 in
/-- Witness for C8 at a raised query exception. -/
theorem C8_query_failure_creates_witness :
    queryFailed .exn = true ∧
    DailySync.wger_post_measurement ⟨[], [], [], 0⟩ .exn (.status 201) 1 2 5 "n" =
      .success ⟨[⟨0, 1, 2, 5, "n"⟩], [], [], 1⟩ .created := by
  refine ⟨rfl, ?_⟩
  rw [(C8_query_failure_creates ⟨[], [], [], 0⟩ .exn 1 2 5 "n" rfl).2]
  rfl

/-- An activity day with a present, positive steps count of 1 still
produces an upsert, and its converted value 0.001 ksteps rounds to 0.00:
the destination receives an explicit zero measurement even though the raw
value passed the positivity guard.  This refutes the final clause of the
zero-suppression claim at this concrete input. -/
theorem C10_counterexample :
    dailyActivityWrites ⟨some 1, some 1, none, none⟩ 30 31 32 = [(30, 0)] := by
  have h : stepsWrite ⟨some 1, some 1, none, none⟩ = some 0 := by
    simp only [stepsWrite]
    norm_num [pyRound, roundHalfEven, Rat.floor]
  simp [dailyActivityWrites, h, distanceWrite, caloriesWrite]

/-- C10 (amended): every nutrition metric whose constants-combined value
equals 0 is skipped (every posted nutrition value is nonzero), and an
activity metric that is missing, None, or not greater than 0 produces no
upsert for that metric; a day without a date produces no activity writes
at all.  However the destination can still receive a zero value, because
a positive steps count small enough to round to 0.00 ksteps is written
as 0. -/
theorem C10_zero_values_skipped :
    (∀ (combined : Nutrition) (catSodium : ℕ),
      ∀ p ∈ nutritionPosts combined catSodium, p.2 ≠ 0) ∧
    (∀ (combined : Nutrition) (catSodium : ℕ),
      combined.calories = 0 →
      (CATEGORY_CALORIES, combined.calories) ∉ nutritionPosts combined catSodium) ∧
    (∀ day : ActivityDay,
      (day.steps = none → stepsWrite day = none) ∧
      (∀ v, day.steps = some v → v ≤ 0 → stepsWrite day = none) ∧
      (day.distance = none → distanceWrite day = none) ∧
      (∀ v, day.distance = some v → v ≤ 0 → distanceWrite day = none) ∧
      (day.calories = none → caloriesWrite day = none) ∧
      (∀ v, day.calories = some v → v ≤ 0 → caloriesWrite day = none)) ∧
    (∀ (day : ActivityDay) (cs cd cc : ℕ),
      day.date = none → dailyActivityWrites day cs cd cc = []) ∧
    (∀ (day : ActivityDay) (cs cd cc : ℕ) (x : ℚ),
      cs ≠ cd → cs ≠ cc → stepsWrite day = none →
      (cs, x) ∉ dailyActivityWrites day cs cd cc) := by
  refine ⟨fun combined catSodium p hp => ?_,
    fun combined catSodium hc hmem => ?_,
    fun day => ⟨fun h => ?_, fun v hv hle => ?_, fun h => ?_, fun v hv hle => ?_,
      fun h => ?_, fun v hv hle => ?_⟩,
    fun day cs cd cc h => ?_, fun day cs cd cc x hcd hcc hs hmem => ?_⟩
  · have := (List.mem_filter.mp hp).2
    simpa using this
  · have := (List.mem_filter.mp hmem).2
    rw [hc] at this
    simp at this
  · simp [stepsWrite, h]
  · simp [stepsWrite, hv, not_lt.mpr hle]
  · simp [distanceWrite, h]
  · simp [distanceWrite, hv, not_lt.mpr hle]
  · simp [caloriesWrite, h]
  · simp [caloriesWrite, hv, not_lt.mpr hle]
  · simp [dailyActivityWrites, h]
  · rcases hd : day.date with _ | d
    · simp [dailyActivityWrites, hd] at hmem
    · simp only [dailyActivityWrites, hd, hs, Option.toList_none, List.map_nil,
        List.nil_append, List.mem_append, List.mem_map] at hmem
      rcases hmem with ⟨w, hw, hEq⟩ | ⟨w, hw, hEq⟩
      · exact hcd (by simpa using congrArg Prod.fst hEq.symm)
      · exact hcc (by simpa using congrArg Prod.fst hEq.symm)

/-- Witness for C10 at a concrete combined record with zero calories and
an activity day with non-positive steps. -/
theorem C10_zero_values_skipped_witness :
    ((⟨1, 0, 5, 6, 7, 8, 9⟩ : Nutrition).calories = 0) ∧
    (CATEGORY_CALORIES, (⟨1, 0, 5, 6, 7, 8, 9⟩ : Nutrition).calories) ∉
      nutritionPosts ⟨1, 0, 5, 6, 7, 8, 9⟩ 30 :=
  ⟨rfl, C10_zero_values_skipped.2.1 ⟨1, 0, 5, 6, 7, 8, 9⟩ 30 rfl⟩
